import Mathlib

/-
Verification of the registration/authentication extension in
toshimo/django-registration.

Shallow embedding of the provided sources:
  registration/auth.py                      (EmailModelBackend)
  registration/forms.py                     (registration and authentication forms)
  registration/utils.py                     (generate_unique_username)
  registration/backends/email_code/__init__.py (EmailCodeBackend.register)

The backing account store is modelled as a list of accounts, ORM single-row
lookups (`objects.get`) as functions returning `Except` (DoesNotExist /
MultipleObjectsReturned), and Python `raise` as an `Except.error` result.
Password-hash verification is delegated to the framework by the source code;
it is modelled as comparison with the stored credential.
-/

/-- A stored account, with the fields of Django's `User` model this code
reads and writes: primary key, username, email, stored password credential
and the active flag. -/
structure User where
  id : Nat
  username : String
  email : String
  password : String
  isActive : Bool
  deriving DecidableEq

/-- Exceptions raised by the embedded code: ORM lookup failures and the
`NameError` produced by evaluating an unbound name. -/
inductive PyError where
  | doesNotExist
  | multipleObjectsReturned
  | nameError
  deriving DecidableEq

instance {ε α : Type} [DecidableEq ε] [DecidableEq α] : DecidableEq (Except ε α) := fun x y =>
  match x, y with
  | .ok a, .ok b =>
    if h : a = b then isTrue (by rw [h]) else isFalse (by intro hc; cases hc; exact h rfl)
  | .error a, .error b =>
    if h : a = b then isTrue (by rw [h]) else isFalse (by intro hc; cases hc; exact h rfl)
  | .ok _, .error _ => isFalse (by intro hc; cases hc)
  | .error _, .ok _ => isFalse (by intro hc; cases hc)

/-- The framework's `user.check_password`; hashing is external to this
repository, so verification is modelled as comparison with the stored
credential. -/
def checkPassword (u : User) (p : String) : Bool :=
  u.password == p

/-- registration/auth.py, `EmailModelBackend.authenticate`: look the account
up by exact email (`User.objects.get(email=email)`), return it when the
password verifies, `None` when it does not or when no account matches
(`User.DoesNotExist` is caught); a non-unique match raises. -/
def EmailModelBackend.authenticate (users : List User) (email password : String) :
    Except PyError (Option User) :=
  match users.filter (fun u => u.email == email) with
  | [] => .ok none
  | [u] => if checkPassword u password then .ok (some u) else .ok none
  | _ :: _ :: _ => .error .multipleObjectsReturned

/-- Python `str.lower` (ASCII), as used on email addresses; also models the
case folding performed by the ORM's `__iexact` lookups. -/
def lowerStr (s : String) : String :=
  String.mk (s.data.map Char.toLower)

/-- Error message of the duplicate-email validation failure in forms.py. -/
def duplicateEmailMsg : String :=
  "This email address is already in use. Please supply a different email address."

/-- Error message of the password-confirmation failure in forms.py. -/
def passwordMismatchMsg : String :=
  "The two password fields didn\x27t match."

/-- forms.py, `RegistrationFormUniqueEmail.clean_email`: reject the email when
`User.objects.filter(email__iexact=...)` is non-empty (case-insensitive
match), otherwise return the submitted email unchanged. The store is the
list of registered email addresses. -/
def RegistrationFormUniqueEmail.clean_email (store : List String) (email : String) :
    Except String String :=
  if store.any (fun s => lowerStr s == lowerStr email) then .error duplicateEmailMsg
  else .ok email

/-- forms.py, `EmailRegistrationForm.clean_email`: reject the email when
`User.objects.filter(email=submitted.lower())` is non-empty (exact match
against the lower-cased submission), otherwise return the lower-cased
email. -/
def EmailRegistrationForm.clean_email (store : List String) (email : String) :
    Except String String :=
  if store.any (fun s => s == lowerStr email) then .error duplicateEmailMsg
  else .ok (lowerStr email)

/-- The `cleaned_data` dictionary of `RegistrationForm` at the time `clean`
runs: each field is present only if its own validation succeeded. -/
structure RegistrationCleanedData where
  username : Option String
  email : Option String
  password1 : Option String
  password2 : Option String
  deriving DecidableEq

/-- forms.py, `RegistrationForm.clean`: when both password fields were
individually accepted and differ, raise the mismatch ValidationError (a
non-field error); otherwise return `cleaned_data`. -/
def RegistrationForm.clean (cd : RegistrationCleanedData) :
    Except String RegistrationCleanedData :=
  match cd.password1, cd.password2 with
  | some p1, some p2 => if p1 ≠ p2 then .error passwordMismatchMsg else .ok cd
  | _, _ => .ok cd

/-- The `cleaned_data` dictionary of `EmailRegistrationForm` (no username
field). -/
structure EmailCleanedData where
  email : Option String
  password1 : Option String
  password2 : Option String
  deriving DecidableEq

/-- forms.py, `EmailRegistrationForm.clean`: identical password-confirmation
check. -/
def EmailRegistrationForm.clean (cd : EmailCleanedData) :
    Except String EmailCleanedData :=
  match cd.password1, cd.password2 with
  | some p1, some p2 => if p1 ≠ p2 then .error passwordMismatchMsg else .ok cd
  | _, _ => .ok cd

/-- Outcome of a form-level `clean`: a ValidationError carrying its message,
or an exception that the form machinery does not catch. -/
inductive FormError where
  | validation (msg : String)
  | exception (e : PyError)
  deriving DecidableEq

/-- The slice of the request session this code touches: the result of the
test-cookie round trip and the session expiry (set to 0 to expire on
browser close). -/
structure Session where
  testCookieWorked : Bool
  expiry : Option Nat
  deriving DecidableEq

/-- Python truthiness of `cleaned_data.get(...)`: present and non-empty. -/
def truthyStr : Option String → Bool
  | none => false
  | some s => !(s == "")

/-- Error messages of the authentication forms in forms.py. -/
def incorrectEmailCredsMsg : String :=
  "Please enter a correct email and password. Note that both fields are case-sensitive."

/-- Message of the inactive-account validation failure. -/
def inactiveAccountMsg : String :=
  "This account is inactive."

/-- Message of the cookies-required validation failure. -/
def cookiesRequiredMsg : String :=
  "Your Web browser doesn\x27t appear to have cookies enabled. Cookies are required for logging in."

/-- Message of the incorrect-credentials failure of the email-or-username
form. -/
def incorrectEitherCredsMsg : String :=
  "Please enter a correct username or email and password. Note that both fields are case-sensitive."

/-- forms.py, `EmailAuthenticationForm.clean`: when both fields are truthy,
authenticate; `None` raises the incorrect-credentials ValidationError, an
inactive account the inactive one. Then, if a request was supplied, a
failed test-cookie round trip raises the cookies-required ValidationError.
Returns the resolved `user_cache`. -/
def EmailAuthenticationForm.clean (users : List User) (request : Option Session)
    (email password : Option String) : Except FormError (Option User) :=
  let cookieStep := fun (cache : Option User) =>
    match request with
    | some sess =>
      if !sess.testCookieWorked then Except.error (FormError.validation cookiesRequiredMsg)
      else Except.ok cache
    | none => Except.ok cache
  if truthyStr email && truthyStr password then
    match EmailModelBackend.authenticate users (email.getD "") (password.getD "") with
    | .error e => .error (.exception e)
    | .ok none => .error (.validation incorrectEmailCredsMsg)
    | .ok (some u) =>
      if !u.isActive then .error (.validation inactiveAccountMsg)
      else cookieStep (some u)
  else cookieStep none

/-- Modelled from the spec: when the identifier contains no at-sign the form
calls `authenticate(username=...)`, which the framework resolves by exact
username lookup plus password verification (the framework's model backend is
outside the provided sources). -/
def authenticateByUsername (users : List User) (username password : String) :
    Except PyError (Option User) :=
  match users.filter (fun u => u.username == username) with
  | [] => .ok none
  | [u] => if checkPassword u password then .ok (some u) else .ok none
  | _ :: _ :: _ => .error .multipleObjectsReturned

/-- forms.py, `EmailOrUsernameAuthenticationForm.clean`: dispatch on the
presence of an at-sign to email or username authentication with the same
two ValidationErrors; then, if a request was supplied and `persistent` is
false, set the session expiry to 0. There is no test-cookie check in this
form. Returns the possibly-updated session together with `user_cache`. -/
def EmailOrUsernameAuthenticationForm.clean (users : List User) (request : Option Session)
    (email password : Option String) (persistent : Bool) :
    Except FormError (Option Session × Option User) :=
  let sessionStep := fun (cache : Option User) =>
    let request' := match request with
      | some sess => if !persistent then some { sess with expiry := some 0 } else some sess
      | none => none
    Except.ok (request', cache)
  if truthyStr email && truthyStr password then
    let e := email.getD ""
    let p := password.getD ""
    match (if e.data.contains '@' then EmailModelBackend.authenticate users e p
           else authenticateByUsername users e p) with
    | .error er => .error (.exception er)
    | .ok none => .error (.validation incorrectEitherCredsMsg)
    | .ok (some u) =>
      if !u.isActive then .error (.validation inactiveAccountMsg)
      else sessionStep (some u)
  else sessionStep none

/-- Decimal digit to its character. -/
def digitChar (d : Nat) : Char :=
  Char.ofNat (48 + d)

/-- Character back to its decimal digit. -/
def digitVal (c : Char) : Nat :=
  c.toNat - 48

/-- Python `str(n)` for a natural number: decimal representation. -/
def natStr (n : Nat) : String :=
  String.mk (((Nat.digits 10 n).map digitChar).reverse)

/-- Python `\s` whitespace (ASCII). -/
def isPythonSpace (c : Char) : Bool :=
  c == ' ' || c == '\t' || c == '\n' || c == '\r' || c == '\x0b' || c == '\x0c'

/-- Python `\w` word character (ASCII). -/
def isWordChar (c : Char) : Bool :=
  c.isAlphanum || c == '_'

/-- A character the slugifier collapses into a hyphen. -/
def isSlugSep (c : Char) : Bool :=
  isPythonSpace c || c == '-'

/-- Replace every maximal run of separator characters by a single hyphen
(the final `re.sub(r"[-\s]+", "-", value)` of the slugifier). -/
def collapseSeps : List Char → List Char
  | [] => []
  | [c] => if isSlugSep c then ['-'] else [c]
  | c1 :: c2 :: rest =>
    if isSlugSep c1 && isSlugSep c2 then collapseSeps (c2 :: rest)
    else (if isSlugSep c1 then '-' else c1) :: collapseSeps (c2 :: rest)

/-- Python `str.strip`: drop leading and trailing whitespace. -/
def stripSpaces (l : List Char) : List Char :=
  ((l.dropWhile isPythonSpace).reverse.dropWhile isPythonSpace).reverse

/-- `django.template.defaultfilters.slugify` on ASCII input: drop every
character that is not a word character, whitespace or a hyphen; strip;
lower-case; collapse separator runs to single hyphens. -/
def slugify (s : String) : String :=
  String.mk (collapseSeps ((stripSpaces
    (s.data.filter (fun c => isWordChar c || isPythonSpace c || c == '-'))).map
      Char.toLower))

/-- Python `txt.split('@')[0]`: the portion before the first at-sign. -/
def beforeAt (s : String) : String :=
  String.mk (s.data.takeWhile (fun c => !(c == '@')))

/-- `User._meta.get_field('username').max_length` in the Django user model. -/
def maxUsernameLength : Nat := 30

/-- Python `s[0:stop]` with a possibly negative stop index. -/
def pySlice0 (s : String) (stop : Int) : String :=
  let eff : Int := if stop < 0 then (s.data.length : Int) + stop else stop
  String.mk (s.data.take eff.toNat)

/-- registration/utils.py: the candidate tried at iteration `i` of
`generate_unique_username`: no suffix at `i = 0`, otherwise the base
truncated by `username[0:max_length-len(pfx)]` followed by `str(i+1)`. -/
def usernameCandidate (base : String) (i : Nat) : String :=
  let pfx := if i == 0 then "" else natStr (i + 1)
  pySlice0 base ((maxUsernameLength : Int) - (pfx.length : Int)) ++ pfx

/-- The base slug of registration/utils.py:
`slugify(txt.split('@')[0])`. -/
def slugBase (txt : String) : String :=
  slugify (beforeAt txt)

/- Auxiliary facts about characters and decimal representation. They are
needed below to prove that the search loop of `generate_unique_username`
terminates, which the embedding of the loop requires up front. -/

theorem char_ofNat_toNat (n : Nat) (h : n.isValidChar) : (Char.ofNat n).toNat = n := by
  simp only [Char.ofNat, dif_pos h, Char.ofNatAux, Char.toNat]
  rfl

theorem char_toLower_eq (c : Char) :
    c.toLower = if c.toNat ≥ 65 ∧ c.toNat ≤ 90 then Char.ofNat (c.toNat + 32) else c := rfl

theorem char_toLower_idem (c : Char) : c.toLower.toLower = c.toLower := by
  rw [char_toLower_eq c]
  by_cases h : c.toNat ≥ 65 ∧ c.toNat ≤ 90
  · rw [if_pos h, char_toLower_eq]
    have hv : (c.toNat + 32).isValidChar := Or.inl (by omega)
    rw [char_ofNat_toNat _ hv, if_neg (by omega)]
  · rw [if_neg h, char_toLower_eq, if_neg h]

theorem lowerStr_idem (s : String) : lowerStr (lowerStr s) = lowerStr s := by
  unfold lowerStr
  simp only [List.map_map]
  exact congrArg String.mk (List.map_congr_left fun c _ => char_toLower_idem c)

theorem digitVal_digitChar {d : Nat} (h : d < 10) : digitVal (digitChar d) = d := by
  have hv : (48 + d).isValidChar := Or.inl (by omega)
  unfold digitVal digitChar
  rw [char_ofNat_toNat _ hv]
  omega

theorem map_digitVal_digitChar (l : List Nat) (h : ∀ d ∈ l, d < 10) :
    (l.map digitChar).map digitVal = l := by
  induction l with
  | nil => rfl
  | cons d t ih =>
    simp only [List.map_cons, List.cons.injEq]
    exact ⟨digitVal_digitChar (h d (by simp)), ih fun x hx => h x (by simp [hx])⟩

theorem natStr_inj {a b : Nat} (h : natStr a = natStr b) : a = b := by
  have hd : ((Nat.digits 10 a).map digitChar).reverse
      = ((Nat.digits 10 b).map digitChar).reverse := congrArg String.data h
  rw [List.reverse_inj] at hd
  have ha := map_digitVal_digitChar (Nat.digits 10 a)
    fun d hd => Nat.digits_lt_base (by norm_num) hd
  have hb := map_digitVal_digitChar (Nat.digits 10 b)
    fun d hd => Nat.digits_lt_base (by norm_num) hd
  have h2 : Nat.digits 10 a = Nat.digits 10 b := by rw [← ha, ← hb, hd]
  calc a = Nat.ofDigits 10 (Nat.digits 10 a) := (Nat.ofDigits_digits 10 a).symm
    _ = Nat.ofDigits 10 (Nat.digits 10 b) := by rw [h2]
    _ = b := Nat.ofDigits_digits 10 b

theorem natStr_length (n : Nat) (hn : n ≠ 0) : (natStr n).length = Nat.log 10 n + 1 := by
  show (((Nat.digits 10 n).map digitChar).reverse).length = _
  simp [Nat.digits_len 10 n (by norm_num) hn]

theorem natStr_length_le {n k : Nat} (hn : n ≠ 0) (h : n < 10 ^ k) : (natStr n).length ≤ k := by
  rw [natStr_length n hn]
  have := Nat.log_lt_of_lt_pow hn h
  omega

theorem natStr_length_eq {n k : Nat} (h1 : 10 ^ k ≤ n) (h2 : n < 10 ^ (k + 1)) :
    (natStr n).length = k + 1 := by
  have hn : n ≠ 0 := by
    have : (1 : Nat) ≤ 10 ^ k := Nat.one_le_pow _ _ (by norm_num)
    omega
  rw [natStr_length n hn, Nat.log_eq_of_pow_le_of_lt_pow h1 h2]

theorem string_append_cancel_left {s t u : String} (h : s ++ t = s ++ u) : t = u := by
  have h2 := congrArg String.data h
  simp only [String.data_append] at h2
  exact String.ext (List.append_cancel_left h2)

theorem string_empty_append (s : String) : "" ++ s = s := by
  apply String.ext
  rw [String.data_append]
  rfl

theorem usernameCandidate_of_two_le {base : String} {n : Nat} (hn : 2 ≤ n) :
    usernameCandidate base (n - 1)
      = pySlice0 base ((maxUsernameLength : Int) - ((natStr n).length : Int)) ++ natStr n := by
  unfold usernameCandidate
  have h0 : (n - 1 == 0) = false := by
    simp only [beq_eq_false_iff_ne, ne_eq]
    omega
  have h1 : n - 1 + 1 = n := by omega
  simp only [h0, Bool.false_eq_true, if_false, h1]

theorem exists_unclaimed_in_class (store : List String) (base : String) (m : Nat)
    (hm : 2 ≤ m) (hlen : store.length < 9 * 10 ^ (m - 1)) :
    ∃ n, 10 ^ (m - 1) ≤ n ∧ n < 10 ^ m ∧ usernameCandidate base (n - 1) ∉ store := by
  by_contra hc
  push_neg at hc
  have hsum : 10 ^ (m - 1) + 9 * 10 ^ (m - 1) = 10 ^ m := by
    have hm1 : m - 1 + 1 = m := by omega
    calc 10 ^ (m - 1) + 9 * 10 ^ (m - 1) = 10 ^ (m - 1) * 10 := by ring
      _ = 10 ^ (m - 1 + 1) := (pow_succ 10 (m - 1)).symm
      _ = 10 ^ m := by rw [hm1]
  have hclass : ∀ n, 10 ^ (m - 1) ≤ n → n < 10 ^ m →
      usernameCandidate base (n - 1)
        = pySlice0 base ((maxUsernameLength : Int) - (m : Int)) ++ natStr n := by
    intro n h1 h2
    have h10 : (10 : Nat) ≤ 10 ^ (m - 1) := by
      calc (10 : Nat) = 10 ^ 1 := (pow_one 10).symm
        _ ≤ 10 ^ (m - 1) := Nat.pow_le_pow_right (by norm_num) (by omega)
    have hlenn : (natStr n).length = m := by
      have hm1 : m - 1 + 1 = m := by omega
      have := @natStr_length_eq n (m - 1) h1 (by rw [hm1]; exact h2)
      rw [hm1] at this
      exact this
    rw [usernameCandidate_of_two_le (by omega), hlenn]
  have hmem : ∀ x ∈ (List.range' (10 ^ (m - 1)) (9 * 10 ^ (m - 1))).map
      (fun n => usernameCandidate base (n - 1)), x ∈ store := by
    intro x hx
    rcases List.mem_map.1 hx with ⟨n, hn, rfl⟩
    rcases List.mem_range'_1.1 hn with ⟨h1, h2⟩
    exact hc n h1 (by omega)
  have hnd : ((List.range' (10 ^ (m - 1)) (9 * 10 ^ (m - 1))).map
      (fun n => usernameCandidate base (n - 1))).Nodup := by
    refine List.Nodup.map_on ?_ (List.nodup_range' _ _)
    intro x hx y hy hxy
    rcases List.mem_range'_1.1 hx with ⟨hx1, hx2⟩
    rcases List.mem_range'_1.1 hy with ⟨hy1, hy2⟩
    rw [hclass x hx1 (by omega), hclass y hy1 (by omega)] at hxy
    exact natStr_inj (string_append_cancel_left hxy)
  have hle := (List.subperm_of_subset hnd hmem).length_le
  simp only [List.length_map, List.length_range'] at hle
  omega

theorem exists_unclaimed (store : List String) (base : String) :
    ∃ i, usernameCandidate base i ∉ store := by
  obtain ⟨n, _, _, h3⟩ := exists_unclaimed_in_class store base (store.length + 2)
    (by omega)
    (by
      have h1 := Nat.lt_pow_self (show 1 < 10 by norm_num) store.length
      have h2 : (10 : Nat) ^ store.length ≤ 10 ^ (store.length + 2 - 1) :=
        Nat.pow_le_pow_right (by norm_num) (by omega)
      have h3 : (10 : Nat) ^ (store.length + 2 - 1) ≤ 9 * 10 ^ (store.length + 2 - 1) :=
        Nat.le_mul_of_pos_left _ (by norm_num)
      omega)
  exact ⟨n - 1, h3⟩

/-- registration/utils.py, `generate_unique_username`: slugify the part of
the text before the first at-sign and return the candidate of the first
loop iteration whose username is held by no existing account. The loop is
embedded as the least iteration index whose candidate is free, which
exists by `exists_unclaimed`. -/
def generate_unique_username (store : List String) (txt : String) : String :=
  usernameCandidate (slugBase txt) (Nat.find (exists_unclaimed store (slugBase txt)))

/-- A one-time signup code row of `registration.models.RegistrationCode`:
the code string, the used flag, and the id of the account that consumed
it. -/
structure RegistrationCode where
  code : String
  used : Bool
  usedBy : Option Nat
  deriving DecidableEq

/-- Modelled from the spec: `registration/models.py` is not among the
provided sources. Consumption of a signup code is specified as a
compare-and-set claim-if-unused tied to the consuming account; an
already-used code is left untouched. -/
def RegistrationCode.use (c : RegistrationCode) (uid : Nat) : RegistrationCode :=
  if c.used then c else { c with used := true, usedBy := some uid }

/-- The persistent state the registration workflow touches: accounts,
activation records (account id and activation key), the activation emails
dispatched, the user-registered signals emitted, and the signup codes. -/
structure RegState where
  users : List User
  profiles : List (Nat × String)
  emailsSent : List String
  signalsSent : List Nat
  codes : List RegistrationCode
  deriving DecidableEq

/-- `RegistrationCode.objects.get(code=...)`: the unique row with that code
value, `DoesNotExist` when there is none, `MultipleObjectsReturned` when
there are several. -/
def getRegistrationCode (codes : List RegistrationCode) (s : String) :
    Except PyError RegistrationCode :=
  match codes.filter (fun c => c.code == s) with
  | [] => .error .doesNotExist
  | [c] => .ok c
  | _ :: _ :: _ => .error .multipleObjectsReturned

/-- Modelled from the spec: the activation key is an opaque fresh token; its
generation lives in `registration/models.py`, which is not among the
provided sources. -/
def newActivationKey (uid : Nat) : String :=
  natStr uid

/-- Modelled from the spec: `registration/backends/email/__init__.py`
(the parent `EmailBackend.register`) is not among the provided sources.
Per the workflow it atomically creates an inactive account together with
its activation record, dispatches the activation email, emits the
user-registered signal and returns the new account; the username is
derived by the Username Generator from the email address. -/
def EmailBackend.register (st : RegState) (email password : String) : RegState × User :=
  let uid := st.users.length
  let uname := generate_unique_username (st.users.map (fun u => u.username)) email
  let u : User := { id := uid, username := uname, email := email,
                    password := password, isActive := false }
  ({ st with
      users := st.users ++ [u]
      profiles := st.profiles ++ [(uid, newActivationKey uid)]
      emailsSent := st.emailsSent ++ [email]
      signalsSent := st.signalsSent ++ [uid] }, u)

/-- What `EmailCodeBackend.register` hands back: the new account, or the
`False` failure signal. -/
inductive RegOutcome where
  | registered (u : User)
  | failed
  deriving DecidableEq

/-- registration/backends/email_code/__init__.py,
`EmailCodeBackend.register`: a falsy signup code (absent or empty) returns
`False`; otherwise the code is looked up, the parent backend registers the
account and the fetched code is consumed for it. When the lookup (or
anything else in the `try` block) raises, the handler
`except SignupCode.DoesNotExist` is evaluated, and since `SignupCode` is an
unbound name in this module, that evaluation raises `NameError` instead of
catching the exception. -/
def EmailCodeBackend.register (st : RegState) (email password : String)
    (signup_code : Option String) : RegState × Except PyError RegOutcome :=
  match signup_code with
  | none => (st, .ok .failed)
  | some s =>
    if s == "" then (st, .ok .failed)
    else
      match getRegistrationCode st.codes s with
      | .error _ => (st, .error .nameError)
      | .ok _ =>
        let res := EmailBackend.register st email password
        let st' := res.1
        let u := res.2
        ({ st' with
            codes := st'.codes.map fun c =>
              if c.code == s then RegistrationCode.use c u.id else c },
         .ok (.registered u))

/-- An account store claiming every username candidate that precedes the
first one whose decimal suffix has more than thirty digits. -/
def c7Store : List String :=
  (List.range (10 ^ 30 - 1)).map (usernameCandidate "a")

/- Claim theorems. -/

/-- Claim C1, the code as it stands: at a registration attempt whose signup
code matches no stored `RegistrationCode`, `EmailCodeBackend.register` does
not catch the not-found condition and return `False`; evaluating the
handler `except SignupCode.DoesNotExist` raises `NameError`, because
`SignupCode` is an unbound name in that module. No account is created. -/
theorem c1_unknown_code_raises_nameError :
    EmailCodeBackend.register ⟨[], [], [], [], []⟩ "a@b.c" "pw" (some "BADCODE")
      = (⟨[], [], [], [], []⟩, .error .nameError) := by decide

/-- Claim C3: `EmailModelBackend.authenticate` returns the unique account
whose stored email equals the given email exactly when that account's
password verifies; it returns `None` without raising both when no account
has that email and when password verification fails. -/
theorem c3_authenticate_spec (users : List User) (e p : String) :
    (users.filter (fun u => u.email == e) = [] →
      EmailModelBackend.authenticate users e p = .ok none)
    ∧ (∀ u, users.filter (fun v => v.email == e) = [u] →
        (checkPassword u p = true →
          EmailModelBackend.authenticate users e p = .ok (some u))
        ∧ (checkPassword u p = false →
          EmailModelBackend.authenticate users e p = .ok none)) := by
  constructor
  · intro h
    simp [EmailModelBackend.authenticate, h]
  · intro u h
    constructor
    · intro hc
      simp [EmailModelBackend.authenticate, h, hc]
    · intro hc
      simp [EmailModelBackend.authenticate, h, hc]

/-- Claim C3, witness: a one-account store on which the three cases of the
theorem are discharged at concrete inputs. -/
theorem c3_witness :
    EmailModelBackend.authenticate [⟨0, "bob", "b@c.d", "pw", true⟩] "b@c.d" "pw"
        = .ok (some ⟨0, "bob", "b@c.d", "pw", true⟩)
    ∧ EmailModelBackend.authenticate [⟨0, "bob", "b@c.d", "pw", true⟩] "b@c.d" "wrong"
        = .ok none
    ∧ EmailModelBackend.authenticate [⟨0, "bob", "b@c.d", "pw", true⟩] "zz@c.d" "pw"
        = .ok none :=
  ⟨((c3_authenticate_spec [⟨0, "bob", "b@c.d", "pw", true⟩] "b@c.d" "pw").2
      ⟨0, "bob", "b@c.d", "pw", true⟩ (by decide)).1 (by decide),
   ((c3_authenticate_spec [⟨0, "bob", "b@c.d", "pw", true⟩] "b@c.d" "wrong").2
      ⟨0, "bob", "b@c.d", "pw", true⟩ (by decide)).2 (by decide),
   (c3_authenticate_spec [⟨0, "bob", "b@c.d", "pw", true⟩] "zz@c.d" "pw").1 (by decide)⟩

/-- Claim C4, counterexample: the store holds `Foo@Bar.com`, which matches
the submission `foo@bar.com` case-insensitively, yet
`EmailRegistrationForm.clean_email` accepts the submission instead of
failing with the duplicate-email message, because it compares the
lower-cased submission against the stored value verbatim. -/
theorem c4_counterexample :
    lowerStr "Foo@Bar.com" = lowerStr "foo@bar.com"
    ∧ EmailRegistrationForm.clean_email ["Foo@Bar.com"] "foo@bar.com"
        = .ok "foo@bar.com" := by decide

/-- Claim C4 (amended): `RegistrationFormUniqueEmail` fails with the
duplicate-email message exactly on a case-insensitive match;
`EmailRegistrationForm` fails only when the lower-cased submission occurs
verbatim among the stored emails; with no case-insensitive match both
variants pass. -/
theorem c4_unique_email_check (store : List String) (e : String) :
    ((∃ s ∈ store, lowerStr s = lowerStr e) →
      RegistrationFormUniqueEmail.clean_email store e = .error duplicateEmailMsg)
    ∧ ((¬ ∃ s ∈ store, lowerStr s = lowerStr e) →
      RegistrationFormUniqueEmail.clean_email store e = .ok e
      ∧ EmailRegistrationForm.clean_email store e = .ok (lowerStr e))
    ∧ ((∃ s ∈ store, s = lowerStr e) →
      EmailRegistrationForm.clean_email store e = .error duplicateEmailMsg) := by
  refine ⟨?_, ?_, ?_⟩
  · rintro ⟨s, hs, hl⟩
    have h : (store.any fun s => lowerStr s == lowerStr e) = true :=
      List.any_eq_true.2 ⟨s, hs, by simp [hl]⟩
    simp [RegistrationFormUniqueEmail.clean_email, h]
  · intro hn
    have h1 : (store.any fun s => lowerStr s == lowerStr e) = false := by
      cases hany : store.any fun s => lowerStr s == lowerStr e
      · rfl
      · rcases List.any_eq_true.1 hany with ⟨s, hs, hb⟩
        exact absurd ⟨s, hs, by simpa using hb⟩ hn
    have h2 : (store.any fun s => s == lowerStr e) = false := by
      cases hany : store.any fun s => s == lowerStr e
      · rfl
      · rcases List.any_eq_true.1 hany with ⟨s, hs, hb⟩
        have hs' : s = lowerStr e := by simpa using hb
        exact absurd ⟨s, hs, by rw [hs', lowerStr_idem]⟩ hn
    constructor
    · simp [RegistrationFormUniqueEmail.clean_email, h1]
    · simp [EmailRegistrationForm.clean_email, h2]
  · rintro ⟨s, hs, hq⟩
    have h : (store.any fun s => s == lowerStr e) = true :=
      List.any_eq_true.2 ⟨s, hs, by simp [hq]⟩
    simp [EmailRegistrationForm.clean_email, h]

/-- Claim C4, witness: discharging the case-insensitive rejection of the
unique-email form, the pass case of both forms, and the verbatim rejection
of the email form at concrete stores. -/
theorem c4_witness :
    RegistrationFormUniqueEmail.clean_email ["A@b.c"] "a@B.C" = .error duplicateEmailMsg
    ∧ (RegistrationFormUniqueEmail.clean_email ["x@y.z"] "a@B.C" = .ok "a@B.C"
      ∧ EmailRegistrationForm.clean_email ["x@y.z"] "a@B.C" = .ok (lowerStr "a@B.C"))
    ∧ EmailRegistrationForm.clean_email ["a@b.c"] "A@B.C" = .error duplicateEmailMsg :=
  ⟨(c4_unique_email_check ["A@b.c"] "a@B.C").1 (by decide),
   (c4_unique_email_check ["x@y.z"] "a@B.C").2.1 (by decide),
   (c4_unique_email_check ["a@b.c"] "A@B.C").2.2 (by decide)⟩

/-- Claim C5, counterexample: `RegistrationFormUniqueEmail` enforces the
unique-email policy yet returns the successfully validated email
unchanged, not lower-cased. -/
theorem c5_counterexample :
    RegistrationFormUniqueEmail.clean_email [] "Ab@C.de" = .ok "Ab@C.de"
    ∧ "Ab@C.de" ≠ lowerStr "Ab@C.de" := by decide

/-- Claim C5 (amended): on successful validation `EmailRegistrationForm`
returns the lower-cased submitted email, while `RegistrationFormUniqueEmail`
returns the submitted email unchanged. -/
theorem c5_normalized_email (store : List String) (e r : String) :
    (EmailRegistrationForm.clean_email store e = .ok r → r = lowerStr e)
    ∧ (RegistrationFormUniqueEmail.clean_email store e = .ok r → r = e) := by
  constructor
  · intro h
    by_cases hc : (store.any fun s => s == lowerStr e) = true
    · rw [EmailRegistrationForm.clean_email, if_pos hc] at h
      cases h
    · rw [EmailRegistrationForm.clean_email, if_neg hc] at h
      cases h
      rfl
  · intro h
    by_cases hc : (store.any fun s => lowerStr s == lowerStr e) = true
    · rw [RegistrationFormUniqueEmail.clean_email, if_pos hc] at h
      cases h
    · rw [RegistrationFormUniqueEmail.clean_email, if_neg hc] at h
      cases h
      rfl

/-- Claim C5, witness: both success-shape hypotheses discharged at concrete
inputs. -/
theorem c5_witness :
    "ab@c.de" = lowerStr "Ab@C.de" ∧ "Ab@C.de" = "Ab@C.de" :=
  ⟨(c5_normalized_email [] "Ab@C.de" "ab@c.de").1 (by decide),
   (c5_normalized_email [] "Ab@C.de" "Ab@C.de").2 (by decide)⟩

/-- Claim C6: whenever both password fields were individually accepted and
differ, form-level validation of both registration form variants fails
with the password-mismatch message, whatever the other fields hold. -/
theorem c6_password_mismatch (un em em2 : Option String) (a b : String) (h : a ≠ b) :
    RegistrationForm.clean ⟨un, em, some a, some b⟩ = .error passwordMismatchMsg
    ∧ EmailRegistrationForm.clean ⟨em2, some a, some b⟩ = .error passwordMismatchMsg := by
  constructor
  · simp [RegistrationForm.clean, h]
  · simp [EmailRegistrationForm.clean, h]

/-- Claim C6, witness: the mismatch hypothesis discharged at concrete
passwords. -/
theorem c6_witness :
    RegistrationForm.clean ⟨some "u", some "e@f.g", some "x", some "y"⟩
        = .error passwordMismatchMsg
    ∧ EmailRegistrationForm.clean ⟨some "e@f.g", some "x", some "y"⟩
        = .error passwordMismatchMsg :=
  c6_password_mismatch (some "u") (some "e@f.g") (some "e@f.g") "x" "y" (by decide)

/-- Claim C10: a registration call without a signup code, whether the
argument is absent or the empty string, creates no account (the state is
unchanged) and returns the failure signal `False`. -/
theorem c10_falsy_signup_code_fails (st : RegState) (email password : String) :
    EmailCodeBackend.register st email password none = (st, .ok .failed)
    ∧ EmailCodeBackend.register st email password (some "") = (st, .ok .failed) :=
  ⟨rfl, rfl⟩

/-- Claim C9, counterexample: the session reports that the test cookie did
not round-trip, yet `EmailOrUsernameAuthenticationForm.clean` validates
successfully on correct credentials — this variant performs no
test-cookie check at all. -/
theorem c9_counterexample :
    (Session.mk false none).testCookieWorked = false
    ∧ EmailOrUsernameAuthenticationForm.clean [⟨0, "bob", "b@c.d", "pw", true⟩]
        (some ⟨false, none⟩) (some "b@c.d") (some "pw") true
      = .ok (some ⟨false, none⟩, some ⟨0, "bob", "b@c.d", "pw", true⟩) := by decide

/-- Claim C9 (amended): only `EmailAuthenticationForm` enforces the
test-cookie round trip; when a request is supplied and the cookie did not
work, its validation fails with the cookies-required validation error (a
non-fatal outcome) whenever the credential stage raises nothing — both
when the fields are missing and when they authenticate an active account.
`EmailOrUsernameAuthenticationForm` validates successfully in the same
situation. -/
theorem c9_cookie_check (users : List User) (sess : Session) :
    (∀ p, sess.testCookieWorked = false →
      EmailAuthenticationForm.clean users (some sess) none p
        = .error (.validation cookiesRequiredMsg))
    ∧ (∀ e p u, sess.testCookieWorked = false →
      (e == "") = false → (p == "") = false →
      EmailModelBackend.authenticate users e p = .ok (some u) → u.isActive = true →
      EmailAuthenticationForm.clean users (some sess) (some e) (some p)
        = .error (.validation cookiesRequiredMsg))
    ∧ (∀ e p u, (e == "") = false → (p == "") = false → e.data.contains '@' = true →
      EmailModelBackend.authenticate users e p = .ok (some u) → u.isActive = true →
      EmailOrUsernameAuthenticationForm.clean users (some sess) (some e) (some p) true
        = .ok (some sess, some u)) := by
  refine ⟨?_, ?_, ?_⟩
  · intro p hc
    simp [EmailAuthenticationForm.clean, truthyStr, hc]
  · intro e p u hc he hp hauth hact
    simp [EmailAuthenticationForm.clean, truthyStr, he, hp, hauth, hact, hc]
  · intro e p u he hp hat hauth hact
    have hat' : '@' ∈ e.data := by simpa using hat
    simp [EmailOrUsernameAuthenticationForm.clean, truthyStr, he, hp, hat', hauth, hact]

/-- Claim C9, witness: the hypotheses of the amended theorem discharged on
a one-account store with a cookie-less session. -/
theorem c9_witness :
    EmailAuthenticationForm.clean [⟨0, "bob", "b@c.d", "pw", true⟩] (some ⟨false, some 5⟩)
        (some "b@c.d") (some "pw") = .error (.validation cookiesRequiredMsg)
    ∧ EmailOrUsernameAuthenticationForm.clean [⟨0, "bob", "b@c.d", "pw", true⟩]
        (some ⟨false, some 5⟩) (some "b@c.d") (some "pw") true
      = .ok (some ⟨false, some 5⟩, some ⟨0, "bob", "b@c.d", "pw", true⟩) :=
  ⟨(c9_cookie_check [⟨0, "bob", "b@c.d", "pw", true⟩] ⟨false, some 5⟩).2.1
      "b@c.d" "pw" ⟨0, "bob", "b@c.d", "pw", true⟩
      (by decide) (by decide) (by decide) (by decide) (by decide),
   (c9_cookie_check [⟨0, "bob", "b@c.d", "pw", true⟩] ⟨false, some 5⟩).2.2
      "b@c.d" "pw" ⟨0, "bob", "b@c.d", "pw", true⟩
      (by decide) (by decide) (by decide) (by decide) (by decide)⟩

/-- Claim C2 (spec-modelled consumption): with a signup code string that
matches exactly one stored, unused `RegistrationCode`, `register` creates
exactly one new inactive account and marks that code used by it; and an
already-consumed code is left untouched by every further registration
call, so every code is consumed by at most one account. -/
theorem c2_valid_code_consumed (st : RegState) (email password s : String)
    (c : RegistrationCode)
    (hs : (s == "") = false)
    (hc : st.codes.filter (fun x => x.code == s) = [c])
    (hu : c.used = false) :
    (∃ u : User,
      (EmailCodeBackend.register st email password (some s)).2 = .ok (.registered u)
      ∧ u.isActive = false
      ∧ (EmailCodeBackend.register st email password (some s)).1.users = st.users ++ [u]
      ∧ (EmailCodeBackend.register st email password (some s)).1.codes.filter
          (fun x => x.code == s) = [{ c with used := true, usedBy := some u.id }])
    ∧ (∀ (st' : RegState) (e' p' : String) (sc : Option String) (x : RegistrationCode),
        x ∈ st'.codes → x.used = true →
        x ∈ (EmailCodeBackend.register st' e' p' sc).1.codes) := by
  constructor
  · have hget : getRegistrationCode st.codes s = .ok c := by
      simp [getRegistrationCode, hc]
    refine ⟨(EmailBackend.register st email password).2, ?_, rfl, ?_, ?_⟩
    · simp only [EmailCodeBackend.register, hs, Bool.false_eq_true, if_false, hget]
    · simp only [EmailCodeBackend.register, hs, Bool.false_eq_true, if_false, hget]
      rfl
    · simp only [EmailCodeBackend.register, hs, Bool.false_eq_true, if_false, hget]
      show ((st.codes.map fun x =>
          if x.code == s then RegistrationCode.use x (EmailBackend.register st email password).2.id
          else x).filter fun x => x.code == s) = _
      rw [List.filter_map]
      have hpf : ((fun x : RegistrationCode => x.code == s) ∘ fun x =>
          if x.code == s then RegistrationCode.use x (EmailBackend.register st email password).2.id
          else x) = fun x : RegistrationCode => x.code == s := by
        funext x
        by_cases hx : (x.code == s) = true
        · have husec : (RegistrationCode.use x
              (EmailBackend.register st email password).2.id).code = x.code := by
            unfold RegistrationCode.use
            split
            · rfl
            · rfl
          simp only [Function.comp_apply, hx, if_true, husec]
        · simp only [Function.comp_apply, hx, Bool.false_eq_true, if_false]
      rw [hpf, hc]
      have hcmem : c ∈ List.filter (fun x => x.code == s) st.codes := by
        rw [hc]
        exact List.mem_singleton_self c
      have hcs : (c.code == s) = true := (List.mem_filter.1 hcmem).2
      simp only [List.map_cons, List.map_nil, hcs, if_true]
      unfold RegistrationCode.use
      rw [hu]
      simp
  · intro st' e' p' sc x hx hused
    have hfx : ∀ t : String,
        (if x.code == t then RegistrationCode.use x
          (EmailBackend.register st' e' p').2.id else x) = x := by
      intro t
      by_cases ht : (x.code == t) = true
      · rw [if_pos ht]
        unfold RegistrationCode.use
        rw [hused]
        simp
      · rw [if_neg ht]
    cases sc with
    | none => simpa [EmailCodeBackend.register] using hx
    | some t =>
      by_cases ht : (t == "") = true
      · simp only [EmailCodeBackend.register, ht, if_true]
        exact hx
      · cases hg : getRegistrationCode st'.codes t with
        | error e =>
          simp only [EmailCodeBackend.register, ht, Bool.false_eq_true, if_false, hg]
          exact hx
        | ok cc =>
          simp only [EmailCodeBackend.register, ht, Bool.false_eq_true, if_false, hg]
          show x ∈ st'.codes.map fun cd =>
            if cd.code == t then RegistrationCode.use cd
              (EmailBackend.register st' e' p').2.id else cd
          exact List.mem_map.2 ⟨x, hx, hfx t⟩

/-- Claim C2, witness: the theorem discharged on a store holding one unused
code. -/
theorem c2_witness :
    ∃ u : User,
      (EmailCodeBackend.register ⟨[], [], [], [], [⟨"CODE", false, none⟩]⟩ "e@x.y" "pw"
          (some "CODE")).2 = .ok (.registered u)
      ∧ u.isActive = false
      ∧ (EmailCodeBackend.register ⟨[], [], [], [], [⟨"CODE", false, none⟩]⟩ "e@x.y" "pw"
          (some "CODE")).1.users = [] ++ [u]
      ∧ (EmailCodeBackend.register ⟨[], [], [], [], [⟨"CODE", false, none⟩]⟩ "e@x.y" "pw"
          (some "CODE")).1.codes.filter (fun x => x.code == "CODE")
        = [⟨"CODE", true, some u.id⟩] :=
  (c2_valid_code_consumed ⟨[], [], [], [], [⟨"CODE", false, none⟩]⟩ "e@x.y" "pw" "CODE"
    ⟨"CODE", false, none⟩ (by decide) (by decide) (by decide)).1

theorem pySlice0_length_le (s : String) (stop : Int) (k : Nat)
    (h0 : 0 ≤ stop) (h : stop ≤ (k : Int)) : (pySlice0 s stop).length ≤ k := by
  show (String.mk (s.data.take
      (if stop < 0 then ((s.data.length : Int) + stop) else stop).toNat)).length ≤ k
  rw [if_neg (show ¬stop < 0 by omega)]
  show (s.data.take stop.toNat).length ≤ k
  rw [List.length_take]
  have h1 : stop.toNat ≤ k := by omega
  exact le_trans (min_le_left _ _) h1

theorem append_slice_length_le (base pfx : String) (h : pfx.length ≤ maxUsernameLength) :
    (pySlice0 base ((maxUsernameLength : Int) - (pfx.length : Int)) ++ pfx).length
      ≤ maxUsernameLength := by
  rw [String.length_append]
  have hsl : (pySlice0 base ((maxUsernameLength : Int) - (pfx.length : Int))).length
      ≤ maxUsernameLength - pfx.length := by
    apply pySlice0_length_le
    · omega
    · omega
  omega

theorem usernameCandidate_length_le (base : String) (i : Nat)
    (h : i ≠ 0 → (natStr (i + 1)).length ≤ maxUsernameLength) :
    (usernameCandidate base i).length ≤ maxUsernameLength := by
  unfold usernameCandidate
  by_cases h0 : (i == 0) = true
  · simp only [h0, if_true]
    exact append_slice_length_le base "" (by decide)
  · simp only [h0, Bool.false_eq_true, if_false]
    exact append_slice_length_le base (natStr (i + 1)) (h (by simpa using h0))

/-- Claim C8: for every finite account store and every input text the
username search loop terminates: `generate_unique_username` returns the
candidate of some iteration whose username no existing account holds,
and every earlier iteration collided with the store. -/
theorem c8_generate_unique_username_terminates (store : List String) (txt : String) :
    ∃ i, generate_unique_username store txt = usernameCandidate (slugBase txt) i
      ∧ usernameCandidate (slugBase txt) i ∉ store
      ∧ ∀ j, j < i → usernameCandidate (slugBase txt) j ∈ store := by
  refine ⟨Nat.find (exists_unclaimed store (slugBase txt)), rfl,
    Nat.find_spec (exists_unclaimed store (slugBase txt)), ?_⟩
  intro j hj
  have h := Nat.find_min (exists_unclaimed store (slugBase txt)) hj
  exact not_not.1 h

/-- Claim C7 (amended): the generator slugs the text before the first
at-sign, returns the first free candidate of the suffix sequence, yields
`johndoe` and then `johndoe2` on the spec's example, and its result stays
within the maximum length provided the store holds fewer than
`9 * 10 ^ 29` usernames (a store claiming every candidate with a suffix of
up to thirty digits forces a longer result). -/
theorem c7_generate_unique_username_spec :
    (∀ (store : List String) (txt : String), store.length < 9 * 10 ^ 29 →
      (generate_unique_username store txt).length ≤ maxUsernameLength)
    ∧ (∀ store : List String, "johndoe" ∉ store →
      generate_unique_username store "john.doe@example.com" = "johndoe")
    ∧ (∀ store : List String, "johndoe" ∈ store → "johndoe2" ∉ store →
      generate_unique_username store "john.doe@example.com" = "johndoe2")
    ∧ (∀ (store : List String) (txt : String),
      ∃ i, generate_unique_username store txt = usernameCandidate (slugBase txt) i
        ∧ usernameCandidate (slugBase txt) i ∉ store
        ∧ ∀ j, j < i → usernameCandidate (slugBase txt) j ∈ store) := by
  have hbase : slugBase "john.doe@example.com" = "johndoe" := by decide
  have hc0 : usernameCandidate "johndoe" 0 = "johndoe" := by decide
  refine ⟨?_, ?_, ?_, ?_⟩
  · intro store txt hlen
    obtain ⟨n, hn1, hn2, hn3⟩ := exists_unclaimed_in_class store (slugBase txt) 30
      (by norm_num) (by norm_num; omega)
    have hfind : Nat.find (exists_unclaimed store (slugBase txt)) ≤ n - 1 :=
      Nat.find_le hn3
    show (usernameCandidate (slugBase txt)
      (Nat.find (exists_unclaimed store (slugBase txt)))).length ≤ maxUsernameLength
    apply usernameCandidate_length_le
    intro hi0
    apply natStr_length_le (by omega)
    show Nat.find (exists_unclaimed store (slugBase txt)) + 1 < 10 ^ 30
    have hpos : (1 : Nat) ≤ 10 ^ (30 - 1) := Nat.one_le_pow _ _ (by norm_num)
    omega
  · intro store hfree
    show usernameCandidate (slugBase "john.doe@example.com")
      (Nat.find (exists_unclaimed store (slugBase "john.doe@example.com"))) = "johndoe"
    rw [hbase]
    have hfind0 : Nat.find (exists_unclaimed store "johndoe") = 0 := by
      rw [Nat.find_eq_iff]
      exact ⟨by rw [hc0]; exact hfree, fun n hn => absurd hn (Nat.not_lt_zero n)⟩
    rw [hfind0, hc0]
  · intro store hmem hfree
    show usernameCandidate (slugBase "john.doe@example.com")
      (Nat.find (exists_unclaimed store (slugBase "john.doe@example.com"))) = "johndoe2"
    rw [hbase]
    have h2 : natStr 2 = "2" := by
      have hd : Nat.digits 10 2 = [2] := by
        rw [Nat.digits_def' (by norm_num : (1 : Nat) < 10) (by norm_num : 0 < 2)]
        norm_num
      show String.mk (((Nat.digits 10 2).map digitChar).reverse) = "2"
      rw [hd]
      decide
    have hc1 : usernameCandidate "johndoe" 1 = "johndoe2" := by
      show pySlice0 "johndoe"
        ((maxUsernameLength : Int) - ((natStr (1 + 1)).length : Int)) ++ natStr (1 + 1)
          = "johndoe2"
      rw [show (1 + 1 : Nat) = 2 from rfl, h2]
      decide
    have hfind1 : Nat.find (exists_unclaimed store "johndoe") = 1 := by
      rw [Nat.find_eq_iff]
      refine ⟨by rw [hc1]; exact hfree, ?_⟩
      intro n hn
      have hn0 : n = 0 := by omega
      subst hn0
      rw [hc0]
      exact not_not_intro hmem
    rw [hfind1, hc1]
  · intro store txt
    refine ⟨Nat.find (exists_unclaimed store (slugBase txt)), rfl,
      Nat.find_spec (exists_unclaimed store (slugBase txt)), ?_⟩
    intro j hj
    exact not_not.1 (Nat.find_min (exists_unclaimed store (slugBase txt)) hj)

/-- Claim C7, counterexample to the unconditional length bound: on a store
that claims every username candidate before the first one whose decimal
suffix has thirty-one digits, the generator returns that thirty-one
character suffix, exceeding the configured maximum length. -/
theorem c7_counterexample :
    maxUsernameLength < (generate_unique_username c7Store "a").length := by
  have hbase : slugBase "a" = "a" := by decide
  have hpos : (1 : Nat) ≤ 10 ^ 30 := Nat.one_le_pow _ _ (by norm_num)
  have hsucc : (10 : Nat) ^ 30 < 10 ^ (30 + 1) := by
    rw [pow_succ]
    omega
  have hlen31 : (natStr (10 ^ 30)).length = 31 := natStr_length_eq le_rfl hsucc
  have hcand_top : usernameCandidate "a" (10 ^ 30 - 1) = natStr (10 ^ 30) := by
    have h := @usernameCandidate_of_two_le "a" (10 ^ 30) (by omega)
    rw [hlen31] at h
    rw [h]
    have hsl : pySlice0 "a" ((maxUsernameLength : Int) - ((31 : Nat) : Int)) = "" := by decide
    rw [hsl, string_empty_append]
  have hmem : ∀ j, j < 10 ^ 30 - 1 → usernameCandidate "a" j ∈ c7Store := by
    intro j hj
    exact List.mem_map_of_mem _ (List.mem_range.2 hj)
  have hnotmem : usernameCandidate "a" (10 ^ 30 - 1) ∉ c7Store := by
    rw [hcand_top]
    intro hin
    rcases List.mem_map.1 hin with ⟨j, hj, hje⟩
    rw [List.mem_range] at hj
    have hlej : (usernameCandidate "a" j).length ≤ maxUsernameLength := by
      apply usernameCandidate_length_le
      intro hj0
      apply natStr_length_le (by omega)
      show j + 1 < 10 ^ 30
      omega
    rw [hje, hlen31] at hlej
    norm_num [maxUsernameLength] at hlej
  have hfind : Nat.find (exists_unclaimed c7Store "a") = 10 ^ 30 - 1 := by
    rw [Nat.find_eq_iff]
    exact ⟨hnotmem, fun j hj => not_not_intro (hmem j hj)⟩
  show maxUsernameLength < (usernameCandidate (slugBase "a")
    (Nat.find (exists_unclaimed c7Store (slugBase "a")))).length
  rw [hbase, hfind, hcand_top, hlen31]
  norm_num [maxUsernameLength]

/-- Claim C7, witness: examples of the theorem's conjuncts discharged at
concrete stores. -/
theorem c7_witness :
    generate_unique_username [] "john.doe@example.com" = "johndoe"
    ∧ generate_unique_username ["johndoe"] "john.doe@example.com" = "johndoe2"
    ∧ (generate_unique_username ["johndoe"] "john.doe@example.com").length
        ≤ maxUsernameLength :=
  ⟨c7_generate_unique_username_spec.2.1 [] (by decide),
   c7_generate_unique_username_spec.2.2.1 ["johndoe"] (by decide) (by decide),
   c7_generate_unique_username_spec.1 ["johndoe"] "john.doe@example.com" (by decide)⟩
